import Mathlib

/-!
Verification of the System Grading & Alert Engine of a drinking-water
dashboard repository.

The grading engine is `calculate_system_grade` (src/utils/report_card.py),
a pure function from a water system's violation history to a letter grade
with score, status, explanation and metrics.  The alert engine is
`get_active_alerts` (src/utils/database.py), which turns the current
unaddressed violations and pending public notifications of a system into
an ordered alert feed.  Date strings occur in the feed in the
month/day/4-digit-year format; src/utils/visualizations.py parses them
with exactly that format (errors coerced to null), while the grading
engine parses them with pandas' formatless flexible inference, which
also accepts other standard shapes such as ISO year-month-day.

Records coming from the store are modelled with optional string fields,
matching the dictionary-style access with defaults (`v.get(...)`) in the
source and the possibility of SQL NULLs.  The SQL `ORDER BY ... DESC` and
`>=` comparisons of the alert queries act on stored text values, so they
are modelled as lexicographic comparison of character sequences, which is
how SQLite compares text; `NULL` compares below every string and a NULL
comparison in a WHERE clause excludes the row.  The sort applied by
`ORDER BY` is modelled as a stable merge sort.
-/

namespace WaterSpec

/-! ### Lexicographic text comparison (SQLite text ordering) -/

/-- Lexicographic comparison of character lists, as SQLite compares text. -/
def chListLe (u v : List Char) : Bool :=
  match u, v with
  | x :: xs, y :: ys => if x < y then true else if y < x then false else chListLe xs ys
  | [], _ => true
  | _, [] => false

/-- `strLe a b` models the SQL text comparison `a <= b`. -/
def strLe (a b : String) : Bool := chListLe a.data b.data

theorem chListLe_total : ∀ (a b : List Char), chListLe a b || chListLe b a
  | [], _ => by simp [chListLe]
  | _ :: _, [] => by simp [chListLe]
  | a :: as, b :: bs => by
    simp only [chListLe]
    rcases lt_trichotomy a b with h | h | h
    · simp [h, not_lt.mpr h.le]
    · subst h
      simpa [lt_irrefl] using chListLe_total as bs
    · simp [h, not_lt.mpr h.le]

theorem chListLe_trans : ∀ (a b c : List Char),
    chListLe a b = true → chListLe b c = true → chListLe a c = true
  | [], _, _ => fun _ _ => by simp [chListLe]
  | _ :: _, [], _ => fun h1 _ => by simp [chListLe] at h1
  | _ :: _, _ :: _, [] => fun _ h2 => by simp [chListLe] at h2
  | a :: as, b :: bs, c :: cs => fun h1 h2 => by
    simp only [chListLe] at h1 h2 ⊢
    rcases lt_trichotomy a b with hab | rfl | hab
    · rcases lt_trichotomy b c with hbc | rfl | hbc
      · rw [if_pos (lt_trans hab hbc)]
      · rw [if_pos hab]
      · rw [if_neg (lt_asymm hbc), if_pos hbc] at h2
        simp at h2
    · rw [if_neg (lt_irrefl a), if_neg (lt_irrefl a)] at h1
      rcases lt_trichotomy a c with hac | rfl | hac
      · rw [if_pos hac]
      · rw [if_neg (lt_irrefl a), if_neg (lt_irrefl a)] at h2 ⊢
        exact chListLe_trans as bs cs h1 h2
      · rw [if_neg (lt_asymm hac), if_pos hac] at h2
        simp at h2
    · rw [if_neg (lt_asymm hab), if_pos hab] at h1
      simp at h1

theorem chListLe_refl : ∀ (a : List Char), chListLe a a = true
  | [] => by simp [chListLe]
  | a :: as => by
    simp only [chListLe, if_neg (lt_irrefl a)]
    exact chListLe_refl as

/-! ### Comparison of nullable text values -/

/-- SQL comparison of nullable text for `ORDER BY`: NULL sorts below every
string, so with `DESC` the NULL rows come last. -/
def optStrLe : Option String → Option String → Bool
  | none, _ => true
  | some _, none => false
  | some a, some b => strLe a b

theorem optStrLe_total : ∀ (a b : Option String), optStrLe a b || optStrLe b a
  | none, _ => by simp [optStrLe]
  | some _, none => by simp [optStrLe]
  | some a, some b => chListLe_total a.data b.data

theorem optStrLe_trans : ∀ (a b c : Option String),
    optStrLe a b = true → optStrLe b c = true → optStrLe a c = true
  | none, _, _ => fun _ _ => rfl
  | some _, none, _ => fun h1 _ => by simp [optStrLe] at h1
  | some _, some _, none => fun _ h2 => by simp [optStrLe] at h2
  | some a, some b, some c => fun h1 h2 => chListLe_trans a.data b.data c.data h1 h2

theorem optStrLe_refl : ∀ (a : Option String), optStrLe a a = true
  | none => rfl
  | some a => chListLe_refl a.data

/-! ### `ORDER BY date DESC` as a stable sort -/

/-- Comparator realising `ORDER BY key DESC` on a nullable text key. -/
def dateDescLe {α : Type} (key : α → Option String) (a b : α) : Bool :=
  optStrLe (key b) (key a)

theorem dateDescLe_trans {α : Type} (key : α → Option String) :
    ∀ (a b c : α), dateDescLe key a b = true → dateDescLe key b c = true →
      dateDescLe key a c = true :=
  fun a b c h1 h2 => optStrLe_trans (key c) (key b) (key a) h2 h1

theorem dateDescLe_total {α : Type} (key : α → Option String) :
    ∀ (a b : α), dateDescLe key a b || dateDescLe key b a :=
  fun a b => optStrLe_total (key b) (key a)

/-- The `ORDER BY key DESC` of the alert queries, as a stable sort. -/
def sortByDateDesc {α : Type} (key : α → Option String) (l : List α) : List α :=
  l.mergeSort (dateDescLe key)

theorem sortByDateDesc_perm {α : Type} (key : α → Option String) (l : List α) :
    List.Perm (sortByDateDesc key l) l :=
  l.mergeSort_perm (dateDescLe key)

theorem sortByDateDesc_sorted {α : Type} (key : α → Option String) (l : List α) :
    (sortByDateDesc key l).Pairwise (fun a b => dateDescLe key a b = true) :=
  List.sorted_mergeSort (dateDescLe_trans key) (dateDescLe_total key) l

theorem sortByDateDesc_length {α : Type} (key : α → Option String) (l : List α) :
    (sortByDateDesc key l).length = l.length :=
  (sortByDateDesc_perm key l).length_eq

/-- Stability of the modelled `ORDER BY`: filtering by any property that
pins down the sort key commutes with the sort. -/
theorem filter_sortByDateDesc {α : Type} (key : α → Option String)
    (p : α → Bool) (l : List α)
    (hp : ∀ a b, p a = true → p b = true → key a = key b) :
    (sortByDateDesc key l).filter p = l.filter p := by
  have hple : ∀ a b, p a = true → p b = true → dateDescLe key a b = true := by
    intro a b ha hb
    unfold dateDescLe
    rw [hp a b ha hb]
    exact optStrLe_refl (key b)
  have hc : (l.filter p).Pairwise (fun a b => dateDescLe key a b = true) := by
    apply List.pairwise_of_forall_mem_list
    intro a ha b hb
    exact hple a b (List.of_mem_filter ha) (List.of_mem_filter hb)
  have h1 : List.Sublist (l.filter p) l := List.filter_sublist l
  have h2 : List.Sublist (l.filter p) (sortByDateDesc key l) :=
    List.sublist_mergeSort (dateDescLe_trans key) (dateDescLe_total key) hc h1
  have h3 : List.Sublist (l.filter p) ((sortByDateDesc key l).filter p) := by
    have h := h2.filter p
    rwa [List.filter_filter,
      show (fun a => p a && p a) = p from funext fun a => Bool.and_self (p a)] at h
  have h4 : List.Perm ((sortByDateDesc key l).filter p) (l.filter p) :=
    (sortByDateDesc_perm key l).filter p
  exact (h3.eq_of_length h4.length_eq.symm).symm

/-! ### Violation-date parsing

Two distinct parsers occur in the source.  `create_violation_timeline`
(visualizations.py) parses `NON_COMPL_PER_BEGIN_DATE` with
`format='%m/%d/%Y', errors='coerce'`: exactly the single
month/day/4-digit-year shape is accepted and everything else coerces to
null; `parseDate` models it.  `calculate_system_grade` (report_card.py)
instead calls `pd.to_datetime` with **no** format argument inside a
`try`/`except` that swallows every failure: pandas' flexible inference
also accepts other standard shapes, ISO year-month-day among them.
`pdToDatetime` models that call over the shapes that occur in this
development — the feed's month/day/year shape and the ISO
year-month-day shape — every remaining string yielding null; no theorem
relies on the flexible parser rejecting anything except the `--->`
sentinel, which makes real pandas raise (caught by the bare `except`).
A parsed date is encoded as `year * 10000 + month * 100 + day`, which
orders valid dates chronologically. -/

/-- Split a character list at every occurrence of a separator. -/
def splitOnChar (sep : Char) : List Char → List Char → List (List Char)
  | [], acc => [acc.reverse]
  | c :: cs, acc =>
    if c = sep then acc.reverse :: splitOnChar sep cs []
    else splitOnChar sep cs (c :: acc)

def isLeapYear (y : Nat) : Bool := (y % 4 == 0 && y % 100 != 0) || (y % 400 == 0)

def daysInMonth (y m : Nat) : Nat :=
  if m = 2 then (if isLeapYear y then 29 else 28)
  else if m = 4 ∨ m = 6 ∨ m = 9 ∨ m = 11 then 30
  else 31

/-- Digit characters to the number they denote. -/
def digitsToNat (cs : List Char) : Nat :=
  cs.foldl (fun n c => n * 10 + (c.toNat - 48)) 0

/-- A field of a well-formed date string: nonempty and all digits. -/
def digitField (cs : List Char) : Bool := !cs.isEmpty && cs.all Char.isDigit

/-- The strict timeline-chart parser (`format='%m/%d/%Y'`): only the
month/day/4-digit-year shape is accepted; every other string (the `--->`
sentinel included) yields `none`. -/
def parseDate (s : String) : Option Nat :=
  match splitOnChar '/' s.data [] with
  | [ms, ds, ys] =>
    if digitField ms && digitField ds && digitField ys && ys.length == 4 then
      let m := digitsToNat ms
      let d := digitsToNat ds
      let y := digitsToNat ys
      if 1 ≤ m ∧ m ≤ 12 ∧ 1 ≤ d ∧ d ≤ daysInMonth y m then
        some (y * 10000 + m * 100 + d)
      else none
    else none
  | _ => none

/-- ISO year-month-day parsing, one of the additional shapes pandas'
formatless inference accepts. -/
def parseIsoDate (s : String) : Option Nat :=
  match splitOnChar '-' s.data [] with
  | [ys, ms, ds] =>
    if digitField ys && digitField ms && digitField ds && ys.length == 4 then
      let y := digitsToNat ys
      let m := digitsToNat ms
      let d := digitsToNat ds
      if 1 ≤ m ∧ m ≤ 12 ∧ 1 ≤ d ∧ d ≤ daysInMonth y m then
        some (y * 10000 + m * 100 + d)
      else none
    else none
  | _ => none

/-- The grading engine's `pd.to_datetime` with no format argument, applied
to a possibly missing field: flexible inference over the modelled shapes
(the feed's month/day/year and ISO year-month-day); a missing value or a
failed parse both end up contributing nothing (the `except: pass`). -/
def pdToDatetime : Option String → Option Nat
  | none => none
  | some s =>
    match parseDate s with
    | some d => some d
    | none => parseIsoDate s

/-! ### The grading engine (`calculate_system_grade`, report_card.py) -/

/-- A violation record as consumed by the engines: dictionary-style access
with missing fields allowed. -/
structure Violation where
  VIOLATION_STATUS : Option String
  IS_HEALTH_BASED_IND : Option String
  VIOLATION_CODE : Option String
  NON_COMPL_PER_BEGIN_DATE : Option String
  violation_desc : Option String
deriving DecidableEq

/-- `v.get('VIOLATION_STATUS') == 'Unaddressed'`. -/
def isUnaddressed (v : Violation) : Bool := v.VIOLATION_STATUS == some "Unaddressed"

/-- `v.get('IS_HEALTH_BASED_IND') == 'Y'`. -/
def isHealthBased (v : Violation) : Bool := v.IS_HEALTH_BASED_IND == some "Y"

def activeCount (vs : List Violation) : Nat := (vs.filter isUnaddressed).length

def healthCount (vs : List Violation) : Nat := (vs.filter isHealthBased).length

def activeHealthCount (vs : List Violation) : Nat :=
  (vs.filter (fun v => isUnaddressed v && isHealthBased v)).length

/-- One violation's contribution to the recent count: its parsed begin date
must be strictly after the cutoff `datetime.now() - timedelta(days=730)`;
a failed parse contributes nothing. -/
def recentContrib (v : Violation) (twoYearsAgo : Nat) : Bool :=
  match pdToDatetime v.NON_COMPL_PER_BEGIN_DATE with
  | some d => decide (twoYearsAgo < d)
  | none => false

def recentCount (vs : List Violation) (twoYearsAgo : Nat) : Nat :=
  (vs.filter (fun v => recentContrib v twoYearsAgo)).length

/-- `resolved / total * 100 if total > 0 else 100`, in exact rational
arithmetic. -/
def resolutionRate (vs : List Violation) : ℚ :=
  if vs.length > 0 then
    ((vs.length - activeCount vs : Nat) : ℚ) / (vs.length : ℚ) * 100
  else 100

/-- Round half to even, the rounding used when formatting a rate with the
`.0f` format specifier. -/
def roundHalfEven (q : ℚ) : ℤ :=
  if q - ⌊q⌋ < 1 / 2 then ⌊q⌋
  else if q - ⌊q⌋ > 1 / 2 then ⌊q⌋ + 1
  else if ⌊q⌋ % 2 = 0 then ⌊q⌋ else ⌊q⌋ + 1

/-- The rate as printed by the `.0f` format specifier. -/
def fmtRate (q : ℚ) : String := toString (roundHalfEven q)

/-- The intermediate counts exposed by the grading engine. -/
structure Metrics where
  total_violations : Nat
  active_violations : Nat
  health_violations : Nat
  active_health : Nat
  resolution_rate : ℚ
  recent_violations : Nat
deriving DecidableEq

/-- The result dictionary of `calculate_system_grade` (the decorative emoji
field is omitted; it is mentioned by no claim).  The early return for an
empty history carries no metrics, hence the `Option`. -/
structure GradeResult where
  grade : String
  score : Nat
  color : String
  status : String
  explanation : String
  metrics : Option Metrics
deriving DecidableEq

def metricsOf (vs : List Violation) (twoYearsAgo : Nat) : Metrics :=
  { total_violations := vs.length
    active_violations := activeCount vs
    health_violations := healthCount vs
    active_health := activeHealthCount vs
    resolution_rate := resolutionRate vs
    recent_violations := recentCount vs twoYearsAgo }

/-- The branch cascade of lines 61-128 of report_card.py. -/
def gradeCore (total active ah recent : Nat) (rate : ℚ) (m : Metrics) : GradeResult :=
  if ah > 0 then
    if ah ≥ 3 then
      { grade := "F", score := 30, color := "danger", status := "Critical",
        explanation := toString ah ++ " active health-based violations", metrics := some m }
    else
      { grade := "D", score := 50, color := "warning", status := "Poor",
        explanation := toString ah ++ " active health violation(s)", metrics := some m }
  else if active > 0 then
    if active ≥ 5 then
      { grade := "D", score := 55, color := "warning", status := "Poor",
        explanation := toString active ++ " active violations", metrics := some m }
    else
      { grade := "C", score := 70, color := "info", status := "Fair",
        explanation := toString active ++ " active violation(s)", metrics := some m }
  else if recent > 0 then
    if rate ≥ 90 then
      { grade := "B", score := 85, color := "primary", status := "Good",
        explanation := toString recent ++ " recent violations, " ++ fmtRate rate ++ "% resolved",
        metrics := some m }
    else
      { grade := "C", score := 75, color := "info", status := "Fair",
        explanation := toString recent ++ " recent violations, " ++ fmtRate rate ++ "% resolved",
        metrics := some m }
  else
    if total ≤ 3 then
      { grade := "A", score := 95, color := "success", status := "Excellent",
        explanation := "Only minor historical violations", metrics := some m }
    else
      { grade := "B", score := 80, color := "primary", status := "Good",
        explanation := toString total ++ " historical violations, all resolved", metrics := some m }

/-- `calculate_system_grade` of report_card.py.  `twoYearsAgo` is the
precomputed cutoff `datetime.now() - timedelta(days=730)` in the date
encoding of `parseDate`. -/
def calculate_system_grade (violations : List Violation) (twoYearsAgo : Nat) : GradeResult :=
  if violations.isEmpty then
    { grade := "A", score := 100, color := "success", status := "Excellent",
      explanation := "No violations on record", metrics := none }
  else
    gradeCore violations.length (activeCount violations) (activeHealthCount violations)
      (recentCount violations twoYearsAgo) (resolutionRate violations)
      (metricsOf violations twoYearsAgo)

/-- The ordered decision list of the specification, flat form: the
branches fire in order and the first match wins. -/
def gradeCoreSpec (total active ah recent : Nat) (rate : ℚ) (m : Metrics) : GradeResult :=
  if ah ≥ 3 then
    { grade := "F", score := 30, color := "danger", status := "Critical",
      explanation := toString ah ++ " active health-based violations", metrics := some m }
  else if ah ≥ 1 then
    { grade := "D", score := 50, color := "warning", status := "Poor",
      explanation := toString ah ++ " active health violation(s)", metrics := some m }
  else if active ≥ 5 then
    { grade := "D", score := 55, color := "warning", status := "Poor",
      explanation := toString active ++ " active violations", metrics := some m }
  else if active ≥ 1 then
    { grade := "C", score := 70, color := "info", status := "Fair",
      explanation := toString active ++ " active violation(s)", metrics := some m }
  else if recent ≥ 1 ∧ rate ≥ 90 then
    { grade := "B", score := 85, color := "primary", status := "Good",
      explanation := toString recent ++ " recent violations, " ++ fmtRate rate ++ "% resolved",
      metrics := some m }
  else if recent ≥ 1 then
    { grade := "C", score := 75, color := "info", status := "Fair",
      explanation := toString recent ++ " recent violations, " ++ fmtRate rate ++ "% resolved",
      metrics := some m }
  else if total ≤ 3 then
    { grade := "A", score := 95, color := "success", status := "Excellent",
      explanation := "Only minor historical violations", metrics := some m }
  else
    { grade := "B", score := 80, color := "primary", status := "Good",
      explanation := toString total ++ " historical violations, all resolved", metrics := some m }

/-- The specification's decision list over a violation history. -/
def gradeDecisionList (violations : List Violation) (twoYearsAgo : Nat) : GradeResult :=
  if violations.isEmpty then
    { grade := "A", score := 100, color := "success", status := "Excellent",
      explanation := "No violations on record", metrics := none }
  else
    gradeCoreSpec violations.length (activeCount violations) (activeHealthCount violations)
      (recentCount violations twoYearsAgo) (resolutionRate violations)
      (metricsOf violations twoYearsAgo)

/-- Order on grades: A best, F worst. -/
def gradeRank : String → Nat
  | "A" => 0
  | "B" => 1
  | "C" => 2
  | "D" => 3
  | "F" => 4
  | _ => 5

theorem gradeCore_eq_spec (total active ah recent : Nat) (rate : ℚ) (m : Metrics) :
    gradeCore total active ah recent rate m = gradeCoreSpec total active ah recent rate m := by
  unfold gradeCore gradeCoreSpec
  by_cases h3 : ah ≥ 3
  · simp [h3, show ah > 0 by omega]
  · by_cases h1 : ah > 0
    · simp [h3, h1, show ah ≥ 1 by omega]
    · by_cases a5 : active ≥ 5
      · simp [h3, h1, a5, show ¬ ah ≥ 1 by omega, show active > 0 by omega]
      · by_cases a1 : active > 0
        · simp [h3, h1, a5, a1, show ¬ ah ≥ 1 by omega, show active ≥ 1 by omega]
        · by_cases r1 : recent > 0
          · by_cases r90 : rate ≥ 90
            · simp [h3, h1, a5, a1, r1, r90, show ¬ ah ≥ 1 by omega,
                show ¬ active ≥ 1 by omega, show recent ≥ 1 by omega]
            · simp [h3, h1, a5, a1, r1, r90, show ¬ ah ≥ 1 by omega,
                show ¬ active ≥ 1 by omega, show recent ≥ 1 by omega]
          · simp [h3, h1, a5, a1, r1, show ¬ ah ≥ 1 by omega,
              show ¬ active ≥ 1 by omega, show ¬ recent ≥ 1 by omega]

/-- The nine grade/score pairs the branch cascade can produce. -/
theorem gradeCore_enum (t a ah r : Nat) (q : ℚ) (m : Metrics) :
    ((gradeCore t a ah r q m).grade, (gradeCore t a ah r q m).score) ∈
      [("A", 95), ("B", 85), ("B", 80), ("C", 75), ("C", 70),
       ("D", 55), ("D", 50), ("F", 30)] := by
  unfold gradeCore
  split_ifs <;> simp

/-- The grade/score pairs the engine can produce, the empty-history pair
included. -/
theorem grade_score_enum (vs : List Violation) (c : Nat) :
    ((calculate_system_grade vs c).grade, (calculate_system_grade vs c).score) ∈
      [("A", 100), ("A", 95), ("B", 85), ("B", 80), ("C", 75), ("C", 70),
       ("D", 55), ("D", 50), ("F", 30)] := by
  unfold calculate_system_grade
  split_ifs
  · simp
  · have h := gradeCore_enum vs.length (activeCount vs) (activeHealthCount vs)
      (recentCount vs c) (resolutionRate vs) (metricsOf vs c)
    simp only [List.mem_cons, List.not_mem_nil, or_false] at h ⊢
    tauto

theorem gradeCore_rank_le (t a ah r : Nat) (q : ℚ) (m : Metrics) :
    gradeRank (gradeCore t a ah r q m).grade ≤ 4 := by
  have hall : ∀ p ∈ [("A", 95), ("B", 85), ("B", 80), ("C", 75), ("C", 70),
      ("D", 55), ("D", 50), ("F", 30)], gradeRank p.1 ≤ 4 := by decide
  exact hall _ (gradeCore_enum t a ah r q m)

/-- Active health-based violations form a subset of the active ones. -/
theorem activeHealthCount_le_activeCount (vs : List Violation) :
    activeHealthCount vs ≤ activeCount vs := by
  unfold activeHealthCount activeCount
  induction vs with
  | nil => simp
  | cons v t ih =>
    simp only [List.filter_cons]
    by_cases h1 : isUnaddressed v <;> by_cases h2 : isHealthBased v <;>
      simp [h1, h2] <;> omega

theorem activeHealthCount_le_length (vs : List Violation) :
    activeHealthCount vs ≤ vs.length := by
  unfold activeHealthCount
  exact List.length_filter_le _ vs

/-- Raising `active_health` while the active count stays fixed never
lowers the grade rank produced by the branch cascade. -/
theorem gradeCore_rank_mono (t₁ a ah₁ r₁ : Nat) (q₁ : ℚ) (m₁ : Metrics)
    (t₂ ah₂ r₂ : Nat) (q₂ : ℚ) (m₂ : Metrics)
    (hlt : ah₁ < ah₂) (hle : ah₂ ≤ a) :
    gradeRank (gradeCore t₁ a ah₁ r₁ q₁ m₁).grade ≤
      gradeRank (gradeCore t₂ a ah₂ r₂ q₂ m₂).grade := by
  have ha2 : ah₂ > 0 := by omega
  have hagt : a > 0 := by omega
  by_cases h23 : ah₂ ≥ 3
  · have hrhs : (gradeCore t₂ a ah₂ r₂ q₂ m₂).grade = "F" := by
      unfold gradeCore
      simp [ha2, h23]
    rw [hrhs]
    simpa [gradeRank] using gradeCore_rank_le t₁ a ah₁ r₁ q₁ m₁
  · have hrhs : (gradeCore t₂ a ah₂ r₂ q₂ m₂).grade = "D" := by
      unfold gradeCore
      simp [ha2, h23]
    rw [hrhs]
    unfold gradeCore
    by_cases h11 : ah₁ > 0
    · simp [h11, show ¬ ah₁ ≥ 3 by omega, gradeRank]
    · by_cases ha5 : a ≥ 5
      · simp [h11, hagt, ha5, gradeRank]
      · simp [h11, hagt, ha5, gradeRank]

/-! ### Sample records used by witnesses and counterexamples -/

/-- An unaddressed health-based violation with no usable date. -/
def sampleActiveHealth : Violation := ⟨some "Unaddressed", some "Y", none, none, none⟩

/-- An unaddressed violation that is not health-based. -/
def sampleActive : Violation := ⟨some "Unaddressed", some "N", none, none, none⟩

/-- A resolved violation whose begin date is the `--->` sentinel. -/
def sampleSentinel : Violation := ⟨some "Resolved", some "N", none, some "--->", none⟩

/-! ### Claims about the grading engine -/

/-- C1: for every violation history, `calculate_system_grade` returns the
result of the ordered decision list with the first matching branch winning:
an empty input yields grade A, score 100, status Excellent, explanation
"No violations on record"; otherwise, after computing total, active,
active_health, resolution_rate and recent, the branches fire in order
(active_health >= 3 gives F/30/Critical; active_health >= 1 gives D/50/Poor;
active >= 5 gives D/55/Poor; active >= 1 gives C/70/Fair; recent >= 1 with
resolution_rate >= 90 gives B/85/Good; recent >= 1 gives C/75/Fair;
total <= 3 gives A/95/Excellent; otherwise B/80/Good), each branch with its
specified explanation string. -/
theorem claim1_decision_list (vs : List Violation) (c : Nat) :
    calculate_system_grade vs c = gradeDecisionList vs c := by
  unfold calculate_system_grade gradeDecisionList
  by_cases h : vs.isEmpty <;> simp [h, gradeCore_eq_spec]

/-- C2: for every violation history, records with missing fields or
malformed dates included, the engine returns a grade among A, B, C, D, F
and a score between 0 and 100 (being a total Lean function, it never
raises). -/
theorem claim2_totality (vs : List Violation) (c : Nat) :
    (calculate_system_grade vs c).grade ∈ ["A", "B", "C", "D", "F"]
    ∧ 0 ≤ (calculate_system_grade vs c).score
    ∧ (calculate_system_grade vs c).score ≤ 100 := by
  have hall : ∀ p ∈ [("A", 100), ("A", 95), ("B", 85), ("B", 80), ("C", 75), ("C", 70),
      ("D", 55), ("D", 50), ("F", 30)],
      p.1 ∈ ["A", "B", "C", "D", "F"] ∧ 0 ≤ p.2 ∧ p.2 ≤ 100 := by decide
  exact hall _ (grade_score_enum vs c)

/-- C3 counterexample: for the empty violation list the result of
`calculate_system_grade` carries no metrics object at all (the early
return of lines 29-37 of report_card.py has no metrics key), refuting the
claim that every input yields the full metrics object. -/
theorem claim3_counterexample : (calculate_system_grade [] 0).metrics = none := rfl

/-- C3 amended: for every nonempty input, whichever branch of the decision
list fired, the result carries the full metrics object with all six fields
(total, active, health, active_health, resolution_rate, recent); for the
empty input the result carries no metrics object. -/
theorem claim3_metrics_for_nonempty (vs : List Violation) (c : Nat) (h : vs ≠ []) :
    (calculate_system_grade vs c).metrics = some (metricsOf vs c) := by
  unfold calculate_system_grade
  rw [if_neg (by simpa [List.isEmpty_iff] using h)]
  unfold gradeCore
  split_ifs <;> rfl

theorem claim3_witness :
    (calculate_system_grade [sampleActiveHealth] 0).metrics = some (metricsOf [sampleActiveHealth] 0) :=
  claim3_metrics_for_nonempty [sampleActiveHealth] 0 (by simp)

/-- C4: two inputs with the same total, active, recent and resolution-rate
values and a strictly larger active-health count on the second side never
give the second input a better grade (closer to A in the order
A < B < C < D < F). -/
theorem claim4_active_health_monotone (vs₁ vs₂ : List Violation) (c₁ c₂ : Nat)
    (htot : vs₁.length = vs₂.length)
    (hact : activeCount vs₁ = activeCount vs₂)
    (hrec : recentCount vs₁ c₁ = recentCount vs₂ c₂)
    (hrate : resolutionRate vs₁ = resolutionRate vs₂)
    (hah : activeHealthCount vs₁ < activeHealthCount vs₂) :
    gradeRank (calculate_system_grade vs₁ c₁).grade ≤
      gradeRank (calculate_system_grade vs₂ c₂).grade := by
  have hsub : activeHealthCount vs₂ ≤ activeCount vs₂ := activeHealthCount_le_activeCount vs₂
  have hlen2 : 0 < vs₂.length := by
    have := activeHealthCount_le_length vs₂
    omega
  have hne2 : vs₂.isEmpty = false := by
    rw [List.isEmpty_eq_false_iff_exists_mem]
    rcases vs₂ with _ | ⟨v, t⟩
    · simp at hlen2
    · exact ⟨v, by simp⟩
  have hne1 : vs₁.isEmpty = false := by
    rw [List.isEmpty_eq_false_iff_exists_mem]
    rcases vs₁ with _ | ⟨v, t⟩
    · simp at htot; omega
    · exact ⟨v, by simp⟩
  unfold calculate_system_grade
  rw [hne1, hne2]
  simp only [Bool.false_eq_true, if_false]
  rw [hact]
  exact gradeCore_rank_mono _ _ _ _ _ _ _ _ _ _ _ hah hsub

/-- One active non-health violation: same totals as `vsLen₂` but no
active-health count. -/
def vsLen₁ : List Violation := [sampleActive]

/-- One active health-based violation. -/
def vsLen₂ : List Violation := [sampleActiveHealth]

theorem claim4_witness :
    vsLen₁.length = vsLen₂.length
    ∧ activeCount vsLen₁ = activeCount vsLen₂
    ∧ recentCount vsLen₁ 0 = recentCount vsLen₂ 0
    ∧ resolutionRate vsLen₁ = resolutionRate vsLen₂
    ∧ activeHealthCount vsLen₁ < activeHealthCount vsLen₂
    ∧ gradeRank (calculate_system_grade vsLen₁ 0).grade ≤
        gradeRank (calculate_system_grade vsLen₂ 0).grade :=
  ⟨by decide, by decide, by decide, rfl, by decide,
    claim4_active_health_monotone vsLen₁ vsLen₂ 0 0 (by decide) (by decide) (by decide) rfl (by decide)⟩

/-- A string of the shape the strict timeline parser accepts: exactly
three slash-separated nonempty all-digit fields with a 4-digit year. -/
def DateShape (s : String) : Prop :=
  ∃ ms ds ys, splitOnChar '/' s.data [] = [ms, ds, ys]
    ∧ digitField ms = true ∧ digitField ds = true ∧ digitField ys = true
    ∧ ys.length = 4

/-- A resolved violation whose begin date is an ISO string, a format the
grading engine's formatless parse accepts. -/
def sampleIsoDate : Violation := ⟨some "Resolved", some "N", none, some "2024-12-31", none⟩

/-- C5 counterexample: the grading engine parses dates with
`pd.to_datetime` and **no** format argument (report_card.py line 55),
so a string in another standard date format — here ISO year-month-day —
does not parse to null: it parses successfully, is rejected by the
strict month/day/4-digit-year parser of the timeline chart, and does
increment the recent counter, refuting the claim that parsing accepts
exactly the single fixed format. -/
theorem claim5_counterexample :
    pdToDatetime (some "2024-12-31") = some 20241231
    ∧ parseDate "2024-12-31" = none
    ∧ recentCount [sampleIsoDate] 20240101 = 1 := by
  refine ⟨by decide, by decide, by decide⟩

/-- C5 amended: only the timeline chart's parser accepts exactly the
single month/day/4-digit-year shape (every string it accepts has that
shape); the grading engine's formatless parse also accepts other
standard formats such as ISO year-month-day.  The `--->` sentinel
parses to null under both, and inside the grading engine a violation
whose begin date parses to null never increments the recent counter
while still counting toward the total/active/health/active-health
tallies. -/
theorem claim5_date_robustness :
    parseDate "--->" = none
    ∧ pdToDatetime (some "--->") = none
    ∧ (∀ s n, parseDate s = some n → DateShape s)
    ∧ pdToDatetime (some "2024-12-31") = some 20241231
    ∧ (∀ (v : Violation) (vs : List Violation) (c : Nat),
        pdToDatetime v.NON_COMPL_PER_BEGIN_DATE = none →
          recentCount (v :: vs) c = recentCount vs c
          ∧ (v :: vs).length = vs.length + 1
          ∧ activeCount (v :: vs) = (if isUnaddressed v then 1 else 0) + activeCount vs
          ∧ healthCount (v :: vs) = (if isHealthBased v then 1 else 0) + healthCount vs
          ∧ activeHealthCount (v :: vs) =
              (if isUnaddressed v && isHealthBased v then 1 else 0) + activeHealthCount vs) := by
  refine ⟨by decide, by decide, ?_, by decide, ?_⟩
  · intro s n h
    unfold parseDate at h
    split at h
    · rename_i ms ds ys heq
      split_ifs at h with hc1
      · simp only [Bool.and_eq_true, beq_iff_eq] at hc1
        exact ⟨ms, ds, ys, heq, hc1.1.1.1, hc1.1.1.2, hc1.1.2, hc1.2⟩
    · simp at h
  · intro v vs c h
    have hrc : recentContrib v c = false := by
      unfold recentContrib
      rw [h]
    refine ⟨?_, by simp, ?_, ?_, ?_⟩
    · unfold recentCount
      simp [List.filter_cons, hrc]
    · unfold activeCount
      simp only [List.filter_cons]
      by_cases h1 : isUnaddressed v <;> simp [h1, Nat.add_comm]
    · unfold healthCount
      simp only [List.filter_cons]
      by_cases h1 : isHealthBased v <;> simp [h1, Nat.add_comm]
    · unfold activeHealthCount
      simp only [List.filter_cons]
      by_cases h1 : isUnaddressed v <;> by_cases h2 : isHealthBased v <;> simp [h1, h2, Nat.add_comm]

theorem claim5_witness :
    recentCount [sampleSentinel] 0 = recentCount [] 0
    ∧ ([sampleSentinel] : List Violation).length = ([] : List Violation).length + 1
    ∧ activeCount [sampleSentinel] = (if isUnaddressed sampleSentinel then 1 else 0) + activeCount []
    ∧ healthCount [sampleSentinel] = (if isHealthBased sampleSentinel then 1 else 0) + healthCount []
    ∧ activeHealthCount [sampleSentinel] =
        (if isUnaddressed sampleSentinel && isHealthBased sampleSentinel then 1 else 0)
          + activeHealthCount [] :=
  claim5_date_robustness.2.2.2.2 sampleSentinel [] 0 (by decide)

/-- C9: the score is an integer between 0 and 100, and across all branches
it is strictly monotone in the grade: a strictly better grade (closer to A)
always comes with a strictly greater score. -/
theorem claim9_score_grade_monotone (vs₁ vs₂ : List Violation) (c₁ c₂ : Nat) :
    (0 ≤ (calculate_system_grade vs₁ c₁).score ∧ (calculate_system_grade vs₁ c₁).score ≤ 100)
    ∧ (gradeRank (calculate_system_grade vs₁ c₁).grade <
          gradeRank (calculate_system_grade vs₂ c₂).grade →
        (calculate_system_grade vs₂ c₂).score < (calculate_system_grade vs₁ c₁).score) := by
  have hall : ∀ p ∈ [("A", 100), ("A", 95), ("B", 85), ("B", 80), ("C", 75), ("C", 70),
      ("D", 55), ("D", 50), ("F", 30)], ∀ q ∈ [("A", 100), ("A", 95), ("B", 85), ("B", 80),
      ("C", 75), ("C", 70), ("D", 55), ("D", 50), ("F", 30)],
      (0 ≤ p.2 ∧ p.2 ≤ 100) ∧ (gradeRank p.1 < gradeRank q.1 → q.2 < p.2) := by decide
  exact hall _ (grade_score_enum vs₁ c₁) _ (grade_score_enum vs₂ c₂)

theorem claim9_witness :
    gradeRank (calculate_system_grade [] 0).grade <
        gradeRank (calculate_system_grade [sampleActiveHealth, sampleActiveHealth, sampleActiveHealth] 0).grade
    ∧ (calculate_system_grade [sampleActiveHealth, sampleActiveHealth, sampleActiveHealth] 0).score <
        (calculate_system_grade [] 0).score :=
  ⟨by decide,
    (claim9_score_grade_monotone [] [sampleActiveHealth, sampleActiveHealth, sampleActiveHealth] 0 0).2
      (by decide)⟩

/-! ### The alert engine (`get_active_alerts`, database.py) -/

/-- A row of `pn_violation_assoc` joined with its code description. -/
structure PublicNotification where
  VIOLATION_CODE : Option String
  notification_type : Option String
  NON_COMPL_PER_BEGIN_DATE : Option String
  NON_COMPL_PER_END_DATE : Option String
deriving DecidableEq

/-- An entry of the alerts list. -/
structure AlertEntry where
  type : String
  description : Option String
  date : Option String
  severity : String
deriving DecidableEq

/-- The dictionary returned by `get_active_alerts`. -/
structure AlertBundle where
  alert_level : String
  alerts : List AlertEntry
  critical_count : Nat
  warning_count : Nat
  info_count : Nat
deriving DecidableEq

/-- The fixed allow-list of acute-risk violation codes in the WHERE clause
of the critical-violations query. -/
def acuteCodes : List String :=
  ["01", "02", "03", "04", "11", "12", "21", "22", "23", "24"]

/-- WHERE clause of the critical-violations query: unaddressed and either
health-based or carrying an acute-risk code (a NULL code fails the IN test). -/
def isQualifying (v : Violation) : Bool :=
  isUnaddressed v &&
    (isHealthBased v ||
      match v.VIOLATION_CODE with
      | some code => acuteCodes.contains code
      | none => false)

/-- WHERE clause of the notifications query:
`NON_COMPL_PER_END_DATE >= date('now')`; a NULL end date excludes the row. -/
def notifActive (n : PublicNotification) (today : String) : Bool :=
  match n.NON_COMPL_PER_END_DATE with
  | some e => strLe today e
  | none => false

/-- The critical-violations query: filter, then `ORDER BY` begin date
descending. -/
def criticalViolationsQuery (vs : List Violation) : List Violation :=
  sortByDateDesc (fun v => v.NON_COMPL_PER_BEGIN_DATE) (vs.filter isQualifying)

/-- The public-notifications query: filter, then `ORDER BY` begin date
descending. -/
def publicNotificationsQuery (ns : List PublicNotification) (today : String) :
    List PublicNotification :=
  sortByDateDesc (fun n => n.NON_COMPL_PER_BEGIN_DATE)
    (ns.filter (fun n => notifActive n today))

def mkHealthAlert (v : Violation) : AlertEntry :=
  ⟨"Health Violation", v.violation_desc, v.NON_COMPL_PER_BEGIN_DATE, "critical"⟩

def mkViolationAlert (v : Violation) : AlertEntry :=
  ⟨"Violation", v.violation_desc, v.NON_COMPL_PER_BEGIN_DATE, "warning"⟩

def mkNoticeAlert (n : PublicNotification) : AlertEntry :=
  ⟨"Public Notice", n.notification_type, n.NON_COMPL_PER_BEGIN_DATE, "info"⟩

/-- The alert level contributed by the violations block of
`get_active_alerts` (lines 229-249 of database.py). -/
def violationAlertLevel (vs : List Violation) : String :=
  if (criticalViolationsQuery vs).isEmpty then "none"
  else if ((criticalViolationsQuery vs).filter isHealthBased).isEmpty then "warning"
  else "critical"

/-- The entries contributed by the violations block of `get_active_alerts`:
health-based rows each give a critical entry when any exists, otherwise
every queried row gives a warning entry. -/
def violationAlertEntries (vs : List Violation) : List AlertEntry :=
  if (criticalViolationsQuery vs).isEmpty then []
  else if ((criticalViolationsQuery vs).filter isHealthBased).isEmpty then
    (criticalViolationsQuery vs).map mkViolationAlert
  else ((criticalViolationsQuery vs).filter isHealthBased).map mkHealthAlert

/-- `get_active_alerts` of database.py over the two queried tables;
`today` is `date('now')`. -/
def get_active_alerts (vs : List Violation) (ns : List PublicNotification)
    (today : String) : AlertBundle :=
  let pn := publicNotificationsQuery ns today
  let lvl := violationAlertLevel vs
  let alert_level := if pn.isEmpty then lvl else if lvl = "none" then "info" else lvl
  let alerts := violationAlertEntries vs ++ pn.map mkNoticeAlert
  { alert_level := alert_level
    alerts := alerts
    critical_count := (alerts.filter (fun a => a.severity == "critical")).length
    warning_count := (alerts.filter (fun a => a.severity == "warning")).length
    info_count := (alerts.filter (fun a => a.severity == "info")).length }

/-- Rank of alert levels: none < info < warning < critical. -/
def levelRank : String → Nat
  | "none" => 0
  | "info" => 1
  | "warning" => 2
  | "critical" => 3
  | _ => 4

/-- Rank of entry severities: info < warning < critical. -/
def sevRank : String → Nat
  | "info" => 1
  | "warning" => 2
  | "critical" => 3
  | _ => 0

/-- Two consecutive entries are ordered: strictly higher severity first,
and on equal severity the later entry's date key is at most the earlier
entry's. -/
def entryOrdered (a b : AlertEntry) : Prop :=
  sevRank b.severity < sevRank a.severity
  ∨ (sevRank a.severity = sevRank b.severity ∧ optStrLe b.date a.date = true)

/-- The alert entries in raw input order, with no sorting applied;
used to state that ties keep the input order. -/
def unsortedAlerts (vs : List Violation) (ns : List PublicNotification)
    (today : String) : List AlertEntry :=
  (if (vs.filter isQualifying).isEmpty then []
   else if ((vs.filter isQualifying).filter isHealthBased).isEmpty then
     (vs.filter isQualifying).map mkViolationAlert
   else ((vs.filter isQualifying).filter isHealthBased).map mkHealthAlert)
  ++ (ns.filter (fun n => notifActive n today)).map mkNoticeAlert

/-! ### Helper lemmas about the alert engine -/

theorem sortByDateDesc_nil {α : Type} (key : α → Option String) :
    sortByDateDesc key ([] : List α) = [] := by
  simp [sortByDateDesc, List.mergeSort]

theorem sortByDateDesc_singleton {α : Type} (key : α → Option String) (x : α) :
    sortByDateDesc key [x] = [x] := by
  simp [sortByDateDesc, List.mergeSort]

theorem isEmpty_eq_decide {α : Type} (l : List α) :
    l.isEmpty = decide (l.length = 0) := by
  cases l <;> simp

theorem isEmpty_of_perm {α : Type} {l₁ l₂ : List α} (h : List.Perm l₁ l₂) :
    l₁.isEmpty = l₂.isEmpty := by
  rw [isEmpty_eq_decide, isEmpty_eq_decide, h.length_eq]

theorem sortByDateDesc_isEmpty {α : Type} (key : α → Option String) (l : List α) :
    (sortByDateDesc key l).isEmpty = l.isEmpty :=
  isEmpty_of_perm (sortByDateDesc_perm key l)

/-- Filtering a block of same-severity entries by a severity test keeps
all or nothing. -/
theorem filter_sev_map {β : Type} (f : β → AlertEntry) (sev s : String)
    (hf : ∀ b, (f b).severity = sev) (l : List β) :
    (l.map f).filter (fun a => a.severity == s) =
      if sev == s then l.map f else [] := by
  induction l with
  | nil => cases h : (sev == s) <;> simp [h]
  | cons b t ih =>
    simp only [List.map_cons, List.filter_cons, hf b]
    cases h : (sev == s) <;> simp [h] <;> simp [h] at ih <;> exact ih

/-- Filtering a block of same-severity entries by a negated severity test
keeps nothing or all. -/
theorem filter_not_sev_map {β : Type} (f : β → AlertEntry) (sev s : String)
    (hf : ∀ b, (f b).severity = sev) (l : List β) :
    (l.map f).filter (fun a => !(a.severity == s)) =
      if sev == s then [] else l.map f := by
  induction l with
  | nil => cases h : (sev == s) <;> simp [h]
  | cons b t ih =>
    simp only [List.map_cons, List.filter_cons, hf b]
    cases h : (sev == s) <;> simp [h] <;> simp [h] at ih <;> exact ih

theorem mem_map_severity {β : Type} {f : β → AlertEntry} {sev : String}
    (hf : ∀ b, (f b).severity = sev) {l : List β} {a : AlertEntry}
    (h : a ∈ l.map f) : a.severity = sev := by
  rcases List.mem_map.mp h with ⟨x, _, rfl⟩
  exact hf x

theorem mkHealthAlert_severity (v : Violation) : (mkHealthAlert v).severity = "critical" := rfl

theorem mkViolationAlert_severity (v : Violation) : (mkViolationAlert v).severity = "warning" := rfl

theorem mkNoticeAlert_severity (n : PublicNotification) : (mkNoticeAlert n).severity = "info" := rfl

theorem get_active_alerts_alerts (vs : List Violation) (ns : List PublicNotification)
    (today : String) :
    (get_active_alerts vs ns today).alerts =
      violationAlertEntries vs ++ (publicNotificationsQuery ns today).map mkNoticeAlert := rfl

theorem get_active_alerts_critical_count (vs : List Violation) (ns : List PublicNotification)
    (today : String) :
    (get_active_alerts vs ns today).critical_count =
      ((get_active_alerts vs ns today).alerts.filter (fun a => a.severity == "critical")).length := rfl

theorem get_active_alerts_warning_count (vs : List Violation) (ns : List PublicNotification)
    (today : String) :
    (get_active_alerts vs ns today).warning_count =
      ((get_active_alerts vs ns today).alerts.filter (fun a => a.severity == "warning")).length := rfl

theorem get_active_alerts_info_count (vs : List Violation) (ns : List PublicNotification)
    (today : String) :
    (get_active_alerts vs ns today).info_count =
      ((get_active_alerts vs ns today).alerts.filter (fun a => a.severity == "info")).length := rfl

theorem get_active_alerts_level (vs : List Violation) (ns : List PublicNotification)
    (today : String) :
    (get_active_alerts vs ns today).alert_level =
      (if (publicNotificationsQuery ns today).isEmpty then violationAlertLevel vs
       else if violationAlertLevel vs = "none" then "info" else violationAlertLevel vs) := rfl

/-- The severity filter of the full alerts list, blockwise. -/
theorem alerts_sev_filter (vs : List Violation) (ns : List PublicNotification)
    (today : String) (s : String) :
    (get_active_alerts vs ns today).alerts.filter (fun a => a.severity == s) =
      (violationAlertEntries vs).filter (fun a => a.severity == s)
        ++ (if ("info" == s) then (publicNotificationsQuery ns today).map mkNoticeAlert else []) := by
  rw [get_active_alerts_alerts, List.filter_append,
    filter_sev_map mkNoticeAlert "info" s mkNoticeAlert_severity]

/-- The severity filter of the violations block, branchwise. -/
theorem violationAlertEntries_sev_filter (vs : List Violation) (s : String) :
    (violationAlertEntries vs).filter (fun a => a.severity == s) =
      if (criticalViolationsQuery vs).isEmpty then []
      else if ((criticalViolationsQuery vs).filter isHealthBased).isEmpty then
        (if ("warning" == s) then (criticalViolationsQuery vs).map mkViolationAlert else [])
      else
        (if ("critical" == s) then
          ((criticalViolationsQuery vs).filter isHealthBased).map mkHealthAlert else []) := by
  unfold violationAlertEntries
  by_cases h1 : (criticalViolationsQuery vs).isEmpty = true
  · rw [if_pos h1, if_pos h1]
    simp
  · rw [if_neg h1, if_neg h1]
    by_cases h2 : ((criticalViolationsQuery vs).filter isHealthBased).isEmpty = true
    · rw [if_pos h2, if_pos h2,
        filter_sev_map mkViolationAlert "warning" s mkViolationAlert_severity]
    · rw [if_neg h2, if_neg h2,
        filter_sev_map mkHealthAlert "critical" s mkHealthAlert_severity]

/-- C10: the alerts list never mixes critical and warning entries: when a
qualifying violation is health-based, only the health-based ones produce
(critical) entries and the other qualifying ones produce none; warning
entries appear exactly when no qualifying violation is health-based, one
per qualifying violation. -/
theorem claim10_no_mixed_severities (vs : List Violation) (ns : List PublicNotification)
    (today : String) :
    ((get_active_alerts vs ns today).critical_count = 0
      ∨ (get_active_alerts vs ns today).warning_count = 0)
    ∧ ((vs.filter isQualifying).filter isHealthBased ≠ [] →
        (get_active_alerts vs ns today).alerts.filter (fun a => a.severity == "warning") = []
        ∧ (get_active_alerts vs ns today).critical_count =
            ((vs.filter isQualifying).filter isHealthBased).length)
    ∧ ((vs.filter isQualifying).filter isHealthBased = [] →
        (get_active_alerts vs ns today).alerts.filter (fun a => a.severity == "critical") = []
        ∧ (get_active_alerts vs ns today).warning_count = (vs.filter isQualifying).length) := by
  have hperm : List.Perm ((criticalViolationsQuery vs).filter isHealthBased)
      ((vs.filter isQualifying).filter isHealthBased) :=
    (sortByDateDesc_perm _ (vs.filter isQualifying)).filter isHealthBased
  have hqe : (criticalViolationsQuery vs).isEmpty = (vs.filter isQualifying).isEmpty :=
    sortByDateDesc_isEmpty _ (vs.filter isQualifying)
  have hhe : ((criticalViolationsQuery vs).filter isHealthBased).isEmpty =
      ((vs.filter isQualifying).filter isHealthBased).isEmpty := isEmpty_of_perm hperm
  have hhlen : ((criticalViolationsQuery vs).filter isHealthBased).length =
      ((vs.filter isQualifying).filter isHealthBased).length := hperm.length_eq
  have hqlen : (criticalViolationsQuery vs).length = (vs.filter isQualifying).length :=
    sortByDateDesc_length _ (vs.filter isQualifying)
  have hwarn : (vs.filter isQualifying).filter isHealthBased ≠ [] →
      (get_active_alerts vs ns today).alerts.filter (fun a => a.severity == "warning") = []
      ∧ (get_active_alerts vs ns today).critical_count =
          ((vs.filter isQualifying).filter isHealthBased).length := by
    intro hne
    have hh0 : ((vs.filter isQualifying).filter isHealthBased).isEmpty = false := by
      rcases hx : (vs.filter isQualifying).filter isHealthBased with _ | ⟨x, t⟩
      · exact absurd hx hne
      · rfl
    have hq0 : (vs.filter isQualifying).isEmpty = false := by
      rcases hx : vs.filter isQualifying with _ | ⟨x, t⟩
      · rw [hx] at hh0; simp at hh0
      · rfl
    constructor
    · rw [alerts_sev_filter, violationAlertEntries_sev_filter, hqe, hq0, hhe, hh0]
      simp
    · rw [get_active_alerts_critical_count, alerts_sev_filter,
        violationAlertEntries_sev_filter, hqe, hq0, hhe, hh0]
      simp [hhlen]
  have hcrit : (vs.filter isQualifying).filter isHealthBased = [] →
      (get_active_alerts vs ns today).alerts.filter (fun a => a.severity == "critical") = []
      ∧ (get_active_alerts vs ns today).warning_count = (vs.filter isQualifying).length := by
    intro hnil
    have hh0 : ((vs.filter isQualifying).filter isHealthBased).isEmpty = true := by
      rw [hnil]; rfl
    constructor
    · rw [alerts_sev_filter, violationAlertEntries_sev_filter, hqe, hhe, hh0]
      cases hx : (vs.filter isQualifying).isEmpty <;> simp
    · rw [get_active_alerts_warning_count, alerts_sev_filter,
        violationAlertEntries_sev_filter, hqe, hhe, hh0]
      cases hx : (vs.filter isQualifying).isEmpty
      · simp [hqlen]
      · have : vs.filter isQualifying = [] := by
          rcases hy : vs.filter isQualifying with _ | ⟨y, t⟩
          · rfl
          · rw [hy] at hx; simp at hx
        simp [this]
  refine ⟨?_, hwarn, hcrit⟩
  by_cases hne : (vs.filter isQualifying).filter isHealthBased = []
  · left
    rw [get_active_alerts_critical_count, (hcrit hne).1]
    rfl
  · right
    rw [get_active_alerts_warning_count, (hwarn hne).1]
    rfl

/-- A violation qualifying for the alert query through an acute-risk code
rather than the health flag. -/
def sampleAcuteCode : Violation := ⟨some "Unaddressed", some "N", some "01", none, none⟩

theorem claim10_witness :
    ((get_active_alerts [sampleActiveHealth] [] "2026-01-01").alerts.filter
        (fun a => a.severity == "warning") = []
      ∧ (get_active_alerts [sampleActiveHealth] [] "2026-01-01").critical_count =
          (([sampleActiveHealth].filter isQualifying).filter isHealthBased).length)
    ∧ ((get_active_alerts [sampleAcuteCode] [] "2026-01-01").alerts.filter
        (fun a => a.severity == "critical") = []
      ∧ (get_active_alerts [sampleAcuteCode] [] "2026-01-01").warning_count =
          ([sampleAcuteCode].filter isQualifying).length) :=
  ⟨(claim10_no_mixed_severities [sampleActiveHealth] [] "2026-01-01").2.1 (by decide),
   (claim10_no_mixed_severities [sampleAcuteCode] [] "2026-01-01").2.2 (by decide)⟩

theorem violationAlertEntries_info_filter (vs : List Violation) :
    (violationAlertEntries vs).filter (fun a => a.severity == "info") = [] := by
  rw [violationAlertEntries_sev_filter]
  split_ifs with h1 h2 <;> simp_all

/-- The specification's notion of an active notification window: the
evaluation date lies within [begin_date, end_date]; stated from the
spec's words for comparison with the implementation's filter. -/
def windowContains (n : PublicNotification) (d : String) : Bool :=
  match n.NON_COMPL_PER_BEGIN_DATE, n.NON_COMPL_PER_END_DATE with
  | some b, some e => strLe b d && strLe d e
  | _, _ => false

/-- A public notification whose window has not yet begun on 2026-10-12 but
whose end date has not passed. -/
def cexNotification : PublicNotification :=
  ⟨some "PN", some "Boil water advisory", some "2026-12-01", some "2027-01-01"⟩

/-- C8 counterexample: the notifications filter of `get_active_alerts`
checks only `NON_COMPL_PER_END_DATE >= date('now')`, so a notification
whose window has not yet begun still contributes an info entry, refuting
the claimed equivalence with window containment. -/
theorem claim8_counterexample :
    (get_active_alerts [] [cexNotification] "2026-10-12").info_count = 1
    ∧ windowContains cexNotification "2026-10-12" = false := by
  constructor
  · rw [get_active_alerts_info_count, alerts_sev_filter, violationAlertEntries_info_filter]
    have hf : [cexNotification].filter (fun n => notifActive n "2026-10-12")
        = [cexNotification] := by decide
    rw [show publicNotificationsQuery [cexNotification] "2026-10-12" = [cexNotification] from by
      unfold publicNotificationsQuery
      rw [hf, sortByDateDesc_singleton]]
    rfl
  · decide

/-- C8 amended: a public notification contributes an info entry precisely
when its end-date text compares at least the evaluation date under the
store's text ordering — the begin date is never consulted: the info
entries are exactly the rows of the notifications query, and their count
is the number of notifications passing the end-date test. -/
theorem alerts_info_filter (vs : List Violation) (ns : List PublicNotification)
    (today : String) :
    (get_active_alerts vs ns today).alerts.filter (fun a => a.severity == "info")
      = (publicNotificationsQuery ns today).map mkNoticeAlert := by
  rw [alerts_sev_filter, violationAlertEntries_info_filter]
  simp

theorem claim8_amended (vs : List Violation) (ns : List PublicNotification) (today : String) :
    (get_active_alerts vs ns today).alerts.filter (fun a => a.severity == "info")
      = (publicNotificationsQuery ns today).map mkNoticeAlert
    ∧ (get_active_alerts vs ns today).info_count
      = (ns.filter (fun n => notifActive n today)).length := by
  refine ⟨alerts_info_filter vs ns today, ?_⟩
  rw [get_active_alerts_info_count, alerts_info_filter vs ns today, List.length_map]
  exact sortByDateDesc_length _ _

theorem isEmpty_append_eq {α : Type} (l₁ l₂ : List α) :
    (l₁ ++ l₂).isEmpty = (l₁.isEmpty && l₂.isEmpty) := by
  cases l₁ <;> cases l₂ <;> simp

theorem violationAlertLevel_mem (vs : List Violation) :
    violationAlertLevel vs ∈ (["none", "warning", "critical"] : List String) := by
  unfold violationAlertLevel
  split_ifs <;> simp

/-- The non-info entries of the bundle are exactly the violations block. -/
theorem alerts_notinfo_filter (vs : List Violation) (ns : List PublicNotification)
    (today : String) :
    (get_active_alerts vs ns today).alerts.filter (fun a => !(a.severity == "info"))
      = violationAlertEntries vs := by
  rw [get_active_alerts_alerts, List.filter_append,
    filter_not_sev_map mkNoticeAlert "info" "info" mkNoticeAlert_severity]
  rw [if_pos (show ("info" == "info") = true from rfl), List.append_nil]
  unfold violationAlertEntries
  by_cases h1 : (criticalViolationsQuery vs).isEmpty = true
  · rw [if_pos h1]
    rfl
  · rw [if_neg h1]
    by_cases h2 : ((criticalViolationsQuery vs).filter isHealthBased).isEmpty = true
    · rw [if_pos h2,
        filter_not_sev_map mkViolationAlert "warning" "info" mkViolationAlert_severity,
        if_neg (show ¬ (("warning" == "info") = true) by decide)]
    · rw [if_neg h2,
        filter_not_sev_map mkHealthAlert "critical" "info" mkHealthAlert_severity,
        if_neg (show ¬ (("critical" == "info") = true) by decide)]

/-- C7: with no qualifying violations the alert level is exactly "none"
without active public notifications and "info" with some — never
"critical" or "warning"; and appending public notifications to any input
never lowers the level: it can only raise "none" to "info", it leaves the
critical/warning entries unchanged, and it adds exactly the info entries
of the appended notifications that pass the end-date test. -/
theorem claim7_level_floor (vs : List Violation) (ns extra : List PublicNotification)
    (today : String) :
    ((vs.filter isQualifying).isEmpty = true →
        (get_active_alerts vs ns today).alert_level =
          (if (ns.filter (fun n => notifActive n today)).isEmpty then "none" else "info"))
    ∧ levelRank (get_active_alerts vs ns today).alert_level ≤
        levelRank (get_active_alerts vs (ns ++ extra) today).alert_level
    ∧ ((get_active_alerts vs ns today).alert_level
          ≠ (get_active_alerts vs (ns ++ extra) today).alert_level →
        (get_active_alerts vs ns today).alert_level = "none"
          ∧ (get_active_alerts vs (ns ++ extra) today).alert_level = "info")
    ∧ (get_active_alerts vs (ns ++ extra) today).alerts.filter (fun a => !(a.severity == "info"))
        = (get_active_alerts vs ns today).alerts.filter (fun a => !(a.severity == "info"))
    ∧ List.Perm
        ((get_active_alerts vs (ns ++ extra) today).alerts.filter (fun a => a.severity == "info"))
        (((get_active_alerts vs ns today).alerts.filter (fun a => a.severity == "info"))
          ++ (extra.filter (fun n => notifActive n today)).map mkNoticeAlert) := by
  have hpe : (publicNotificationsQuery ns today).isEmpty
      = (ns.filter (fun n => notifActive n today)).isEmpty :=
    sortByDateDesc_isEmpty _ _
  have hpebig : (publicNotificationsQuery (ns ++ extra) today).isEmpty
      = ((ns.filter (fun n => notifActive n today)).isEmpty
          && (extra.filter (fun n => notifActive n today)).isEmpty) := by
    unfold publicNotificationsQuery
    rw [sortByDateDesc_isEmpty, List.filter_append, isEmpty_append_eq]
  refine ⟨?_, ?_, ?_, ?_, ?_⟩
  · intro hq
    have hqs : (criticalViolationsQuery vs).isEmpty = true := by
      rw [criticalViolationsQuery, sortByDateDesc_isEmpty]
      exact hq
    have hlvl : violationAlertLevel vs = "none" := by
      unfold violationAlertLevel
      rw [if_pos hqs]
    rw [get_active_alerts_level, hlvl, hpe]
    cases hx : (ns.filter (fun n => notifActive n today)).isEmpty <;> simp [hx]
  · rw [get_active_alerts_level, get_active_alerts_level, hpe, hpebig]
    have hmem := violationAlertLevel_mem vs
    simp only [List.mem_cons, List.not_mem_nil, or_false] at hmem
    rcases hmem with h | h | h <;> rw [h] <;>
      cases hx : (ns.filter (fun n => notifActive n today)).isEmpty <;>
      cases hy : (extra.filter (fun n => notifActive n today)).isEmpty <;> simp [levelRank]
  · rw [get_active_alerts_level, get_active_alerts_level, hpe, hpebig]
    have hmem := violationAlertLevel_mem vs
    simp only [List.mem_cons, List.not_mem_nil, or_false] at hmem
    rcases hmem with h | h | h <;> rw [h] <;>
      cases hx : (ns.filter (fun n => notifActive n today)).isEmpty <;>
      cases hy : (extra.filter (fun n => notifActive n today)).isEmpty <;> simp
  · rw [alerts_notinfo_filter, alerts_notinfo_filter]
  · rw [alerts_info_filter vs ns today, alerts_info_filter vs (ns ++ extra) today]
    have hbig : List.Perm ((publicNotificationsQuery (ns ++ extra) today).map mkNoticeAlert)
        (((ns.filter (fun n => notifActive n today)).map mkNoticeAlert)
          ++ ((extra.filter (fun n => notifActive n today)).map mkNoticeAlert)) := by
      unfold publicNotificationsQuery
      rw [List.filter_append, ← List.map_append]
      exact (sortByDateDesc_perm (fun n : PublicNotification => n.NON_COMPL_PER_BEGIN_DATE)
        _).map mkNoticeAlert
    have hsmall : List.Perm ((ns.filter (fun n => notifActive n today)).map mkNoticeAlert)
        ((publicNotificationsQuery ns today).map mkNoticeAlert) :=
      ((sortByDateDesc_perm (fun n : PublicNotification => n.NON_COMPL_PER_BEGIN_DATE)
        (ns.filter (fun n => notifActive n today))).map mkNoticeAlert).symm
    exact hbig.trans (hsmall.append_right _)

/-- A public notification active on 2026-10-12. -/
def sampleNotification : PublicNotification :=
  ⟨some "PN", some "Public notice", some "01/01/2026", some "2027-01-01"⟩

theorem claim7_witness :
    ((get_active_alerts [] ([] : List PublicNotification) "2026-10-12").alert_level
      = (if (([] : List PublicNotification).filter (fun n => notifActive n "2026-10-12")).isEmpty
          then "none" else "info"))
    ∧ ((get_active_alerts [] ([] : List PublicNotification) "2026-10-12").alert_level = "none"
        ∧ (get_active_alerts [] ([] ++ [sampleNotification]) "2026-10-12").alert_level = "info") := by
  have hlvl : violationAlertLevel ([] : List Violation) = "none" := by
    unfold violationAlertLevel criticalViolationsQuery
    rw [if_pos (by rw [sortByDateDesc_isEmpty]; rfl)]
  have e1 : (get_active_alerts [] ([] : List PublicNotification) "2026-10-12").alert_level
      = "none" := by
    rw [get_active_alerts_level,
      show publicNotificationsQuery ([] : List PublicNotification) "2026-10-12" = [] from by
        unfold publicNotificationsQuery
        exact sortByDateDesc_nil _,
      hlvl]
    rfl
  have e2 : (get_active_alerts [] ([] ++ [sampleNotification]) "2026-10-12").alert_level
      = "info" := by
    have hf : List.filter (fun n => notifActive n "2026-10-12") ([] ++ [sampleNotification])
        = [sampleNotification] := by decide
    have hq : publicNotificationsQuery ([] ++ [sampleNotification]) "2026-10-12"
        = [sampleNotification] := by
      unfold publicNotificationsQuery
      rw [hf]
      exact sortByDateDesc_singleton _ _
    rw [get_active_alerts_level, hq, hlvl]
    rfl
  refine ⟨(claim7_level_floor [] [] [] "2026-10-12").1 rfl, ?_⟩
  exact (claim7_level_floor [] [] [sampleNotification] "2026-10-12").2.2.1
    (by rw [e1, e2]; decide)

/-! ### Ordering of the alerts list -/

theorem mkHealthAlert_date (v : Violation) :
    (mkHealthAlert v).date = v.NON_COMPL_PER_BEGIN_DATE := rfl

theorem mkViolationAlert_date (v : Violation) :
    (mkViolationAlert v).date = v.NON_COMPL_PER_BEGIN_DATE := rfl

theorem mkNoticeAlert_date (n : PublicNotification) :
    (mkNoticeAlert n).date = n.NON_COMPL_PER_BEGIN_DATE := rfl

/-- A block of entries built from a date-sorted list by a constructor with
a constant severity and the date as key is ordered. -/
theorem pairwise_entries_map {β : Type} (key : β → Option String) (f : β → AlertEntry)
    (hsev : ∀ a b : β, (f a).severity = (f b).severity)
    (hdate : ∀ b, (f b).date = key b)
    (L : List β) (h : L.Pairwise (fun a b => dateDescLe key a b = true)) :
    List.Pairwise entryOrdered (L.map f) :=
  h.map f (fun a b hab =>
    Or.inr ⟨congrArg sevRank (hsev a b), by rw [hdate a, hdate b]; exact hab⟩)

/-- The chronological value of an entry's date field: the stored feed
strings are month/day/4-digit-year, so the strict parser decodes them. -/
def dateVal : Option String → Option Nat
  | none => none
  | some s => parseDate s

/-- "Most recent first" between two entries, stated from the claim's
words: whenever both dates decode, the later entry's date is at most the
earlier entry's. -/
def mostRecentFirst (a b : AlertEntry) : Prop :=
  ∀ x y, dateVal a.date = some x → dateVal b.date = some y → y ≤ x

/-- The ordering the claim asserts of the alerts list: strictly higher
severity first, and on equal severity most recent first — comparing the
dates themselves, not the stored text. -/
def entryOrderedClaim (a b : AlertEntry) : Prop :=
  sevRank b.severity < sevRank a.severity
  ∨ (sevRank a.severity = sevRank b.severity ∧ mostRecentFirst a b)

/-- An older qualifying violation whose month/day/year date string sorts
high under text comparison. -/
def vOldWarn : Violation := ⟨some "Unaddressed", some "N", some "01", some "12/01/2019", none⟩

/-- A more recent qualifying violation whose date string sorts low under
text comparison. -/
def vNewWarn : Violation := ⟨some "Unaddressed", some "N", some "01", some "11/30/2025", none⟩

/-- C6 counterexample: the alert queries order by `ORDER BY
NON_COMPL_PER_BEGIN_DATE DESC` over **text** month/day/year values, and
text-descending is not most-recent-first: "12/01/2019" sorts above
"11/30/2025", so the December 2019 entry precedes the November 2025 one
and the claimed within-band date-descending order fails. -/
theorem claim6_counterexample :
    ¬ List.Pairwise entryOrderedClaim
        (get_active_alerts [vOldWarn, vNewWarn] [] "2026-01-01").alerts := by
  have hsorted : List.Pairwise
      (fun a b => dateDescLe (fun v : Violation => v.NON_COMPL_PER_BEGIN_DATE) a b = true)
      [vOldWarn, vNewWarn] := by
    simp only [List.pairwise_cons, List.mem_singleton, List.not_mem_nil]
    refine ⟨?_, by simp⟩
    intro b hb
    rw [hb]
    decide
  have hq : [vOldWarn, vNewWarn].filter isQualifying = [vOldWarn, vNewWarn] := by decide
  have hcrit : criticalViolationsQuery [vOldWarn, vNewWarn] = [vOldWarn, vNewWarn] := by
    unfold criticalViolationsQuery
    rw [hq]
    exact List.mergeSort_of_sorted hsorted
  have hentries : violationAlertEntries [vOldWarn, vNewWarn]
      = [mkViolationAlert vOldWarn, mkViolationAlert vNewWarn] := by
    unfold violationAlertEntries
    rw [hcrit, if_neg (by decide), if_pos (by decide)]
    rfl
  have halerts : (get_active_alerts [vOldWarn, vNewWarn] [] "2026-01-01").alerts
      = [mkViolationAlert vOldWarn, mkViolationAlert vNewWarn] := by
    rw [get_active_alerts_alerts, hentries,
      show publicNotificationsQuery [] "2026-01-01" = [] from sortByDateDesc_nil _]
    rfl
  rw [halerts]
  intro h
  have h2 := (List.pairwise_cons.mp h).1 (mkViolationAlert vNewWarn) (by simp)
  rcases h2 with h2 | ⟨-, h2⟩
  · revert h2
    decide
  · have h3 := h2 20191201 20251130 (by decide) (by decide)
    omega

/-- C6 amended: the alerts list is sorted by severity rank, all critical
entries before all warning entries before all info entries, and within
each severity band by descending **date-string text order** (the store's
collation used by `ORDER BY ... DESC`, which is most-recent-first only
when the stored strings compare like their dates); entries with equal
severity and equal date string keep the query's input order (the
modelled sort is stable). -/
theorem claim6_alert_ordering (vs : List Violation) (ns : List PublicNotification)
    (today : String) :
    List.Pairwise entryOrdered (get_active_alerts vs ns today).alerts
    ∧ ∀ (s : String) (d : Option String),
        (get_active_alerts vs ns today).alerts.filter
            (fun a => a.severity == s && a.date == d)
          = (unsortedAlerts vs ns today).filter
              (fun a => a.severity == s && a.date == d) := by
  constructor
  · rw [get_active_alerts_alerts]
    rw [List.pairwise_append]
    refine ⟨?_, ?_, ?_⟩
    · unfold violationAlertEntries
      split_ifs with h1 h2
      · simp
      · exact pairwise_entries_map _ mkViolationAlert (fun a b => rfl) (fun b => rfl) _
          (sortByDateDesc_sorted _ _)
      · exact pairwise_entries_map _ mkHealthAlert (fun a b => rfl) (fun b => rfl) _
          ((sortByDateDesc_sorted _ _).filter isHealthBased)
    · exact pairwise_entries_map _ mkNoticeAlert (fun a b => rfl) (fun b => rfl) _
        (sortByDateDesc_sorted _ _)
    · intro a ha b hb
      have hb' : b.severity = "info" := mem_map_severity mkNoticeAlert_severity hb
      have ha' : a.severity = "warning" ∨ a.severity = "critical" := by
        revert ha
        unfold violationAlertEntries
        split_ifs with h1 h2
        · intro ha
          simp at ha
        · intro ha
          exact Or.inl (mem_map_severity mkViolationAlert_severity ha)
        · intro ha
          exact Or.inr (mem_map_severity mkHealthAlert_severity ha)
      rcases ha' with h | h <;> exact Or.inl (by rw [h, hb']; decide)
  · intro s d
    rw [get_active_alerts_alerts]
    unfold unsortedAlerts violationAlertEntries criticalViolationsQuery publicNotificationsQuery
    rw [List.filter_append, List.filter_append]
    have hqe : (sortByDateDesc (fun v : Violation => v.NON_COMPL_PER_BEGIN_DATE)
        (vs.filter isQualifying)).isEmpty = (vs.filter isQualifying).isEmpty :=
      sortByDateDesc_isEmpty _ _
    have hhe : ((sortByDateDesc (fun v : Violation => v.NON_COMPL_PER_BEGIN_DATE)
          (vs.filter isQualifying)).filter isHealthBased).isEmpty
        = ((vs.filter isQualifying).filter isHealthBased).isEmpty :=
      isEmpty_of_perm ((sortByDateDesc_perm _ _).filter isHealthBased)
    rw [hqe, hhe]
    congr 1
    · by_cases h1 : (vs.filter isQualifying).isEmpty = true
      · rw [if_pos h1, if_pos h1]
      · rw [if_neg h1, if_neg h1]
        by_cases h2 : ((vs.filter isQualifying).filter isHealthBased).isEmpty = true
        · rw [if_pos h2, if_pos h2, List.filter_map, List.filter_map]
          congr 1
          apply filter_sortByDateDesc
          intro a b ha hb
          simp only [Function.comp_apply, Bool.and_eq_true, beq_iff_eq] at ha hb
          exact ha.2.trans hb.2.symm
        · rw [if_neg h2, if_neg h2, List.filter_map, List.filter_map]
          congr 1
          rw [List.filter_filter, List.filter_filter]
          apply filter_sortByDateDesc
          intro a b ha hb
          simp only [Function.comp_apply, Bool.and_eq_true, beq_iff_eq] at ha hb
          exact ha.1.2.trans hb.1.2.symm
    · rw [List.filter_map, List.filter_map]
      congr 1
      apply filter_sortByDateDesc
      intro a b ha hb
      simp only [Function.comp_apply, Bool.and_eq_true, beq_iff_eq] at ha hb
      exact ha.2.trans hb.2.symm

end WaterSpec
